import Mathlib

/-!
# Verification of djangbone's `BackboneAPIView` (src/djangbone/views.py)

Shallow embedding of the request-dispatch and serialization core:
Python values, the JSON-encoder fallback (`DjangboneJSONEncoder.default`),
the field projector (`get_values`), pagination slicing inside
`serialize_qs`, and the five HTTP handlers (`get`, `get_single_item`,
`get_collection`, `post`, `put`, `delete`).

External collaborators (Django querysets, forms, the json library's
string-level encoding, `datetime.isoformat`, `float(Decimal)`) are
modelled by their contracts: querysets as Lean lists of records, form
validation as an abstract function into a tagged result, isoformat and
float conversion as function parameters.
-/

namespace Djangbone

/-- Python runtime values as they flow through the view: `None`, booleans,
ints, strings, `datetime.datetime` objects (identified by an abstract tag
consumed by the `isoformat` parameter), `decimal.Decimal` values (modelled
as rationals, since Decimal is exact base-10 arithmetic), floats (also kept
as the rational the conversion function produced), and a catch-all for any
other non-natively-JSON-representable object. -/
inductive PyVal where
  | vNone : PyVal
  | vBool : Bool → PyVal
  | vInt : Int → PyVal
  | vStr : String → PyVal
  | vDatetime : Nat → PyVal
  | vDecimal : Rat → PyVal
  | vFloat : Rat → PyVal
  | vOther : Nat → PyVal
  deriving DecidableEq, Repr

/-- Python truthiness (`bool(x)`) for the values above: `None`, `False`,
`0`, `""`, `Decimal(0)`, `0.0` are falsy; other objects are truthy. -/
def pyTruthy : PyVal → Bool
  | .vNone => false
  | .vBool b => b
  | .vInt n => n != 0
  | .vStr s => s != ""
  | .vDatetime _ => true
  | .vDecimal q => q != 0
  | .vFloat q => q != 0
  | .vOther _ => true

/-- Truthiness of `kwargs.get(self.pk)`: a missing key yields `None`,
which is falsy. -/
def kwTruthy : Option PyVal → Bool
  | none => false
  | some v => pyTruthy v

/-- A backing-store record: fields are read off it by name
(`getattr(obj, name)` in `get_values`). -/
abbrev Rec := String → PyVal

/-- A Python dict with string keys, as an insertion-ordered association
list (Python dicts preserve insertion order; assigning to an existing key
updates it in place). -/
abbrev Dict := List (String × PyVal)

/-- `d[k] = v` on a Python dict: overwrite in place if `k` is present,
otherwise append at the end. -/
def dictSet (d : Dict) (k : String) (v : PyVal) : Dict :=
  if d.any (fun p => p.1 = k) then
    d.map (fun p => if p.1 = k then (k, v) else p)
  else
    d ++ [(k, v)]

/-- `d.get(k)` on a Python dict. -/
def dictGet (d : Dict) (k : String) : Option PyVal :=
  (d.find? (fun p => p.1 = k)).map Prod.snd

/-- `DjangboneJSONEncoder.default` (views.py lines 14-24): the json
library calls this hook only for objects it cannot natively encode.
`isoformat` stands for `datetime.datetime.isoformat` and `pyFloat` for
`float(Decimal)` — both external to the repository. The method never
raises: anything that is neither a datetime nor a Decimal becomes `None`
(JSON `null`). -/
def DjangboneJSONEncoder.default (isoformat : Nat → String) (pyFloat : Rat → Rat) :
    PyVal → PyVal
  | .vDatetime d => .vStr (isoformat d)
  | .vDecimal q => .vFloat (pyFloat q)
  | _ => .vNone

/-- Static configuration of a `BackboneAPIView` subclass: the class
attributes read by the handlers. `add_form_configured` /
`edit_form_configured` record whether `add_form_class` / `edit_form_class`
is something other than `None`; `page_size` is `some S` exactly when
`isinstance(self.page_size, int)` holds. -/
structure ViewConfig where
  serialize_fields : List String
  custom_values : List (String × (Rec → PyVal))
  values_override : Option (Rec → Dict)
  pk : String
  page_size : Option Int
  add_form_configured : Bool
  edit_form_configured : Bool

/-- The inner loop of `get_values` (views.py lines 181-186) for one
record: a dict of the `serialize_fields` read off the record. -/
def projPlain (cfg : ViewConfig) (obj : Rec) : Dict :=
  cfg.serialize_fields.foldl (fun d name => dictSet d name (obj name)) []

/-- One record's projection on the custom-values path: the plain fields
first, then each `custom_values` entry assigned over them
(views.py lines 183-185). -/
def projCustom (cfg : ViewConfig) (obj : Rec) : Dict :=
  cfg.custom_values.foldl (fun d p => dictSet d p.1 (p.2 obj)) (projPlain cfg obj)

/-- `get_values` (views.py lines 177-190). `hasValuesAttr` models
`callable(getattr(qs, 'values', None))`: true for a real queryset, false
for a plain Python list (as passed by `post`/`put`). The native
`qs.values(*self.serialize_fields)` fast path is modelled by its contract:
one flat mapping of the named fields per record. -/
def get_values (cfg : ViewConfig) (hasValuesAttr : Bool) (qs : List Rec) : List Dict :=
  match cfg.values_override with
  | some f => qs.map f
  | none =>
    if !cfg.custom_values.isEmpty || !hasValuesAttr then
      qs.map (projCustom cfg)
    else
      qs.map (projPlain cfg)

/-- The page parameter of the request: absent from `request.GET`, or
present with `int(raw)` succeeding (`some n`) or raising `ValueError`
(`none`). -/
inductive PageParam where
  | absent : PageParam
  | val : Option Int → PageParam

/-- The offset computed in `serialize_qs` (views.py lines 168-172):
`page_number = int(request.GET.get(self.page_param_name, 1))`, then
`offset = (page_number - 1) * self.page_size`; a `ValueError` from `int`
leaves `offset = 0`. Note there is no clamping of negative offsets. -/
def pageOffset (S : Int) : PageParam → Int
  | .absent => (1 - 1) * S
  | .val (some n) => (n - 1) * S
  | .val none => 0

/-- Normalization of one slice bound against a sequence of length `n`,
as in CPython's `slice.indices`: a negative bound counts from the end,
and the result is clamped into `[0, n]`. -/
def pyIdx (n a : Int) : Int :=
  if a < 0 then max (n + a) 0 else min a n

/-- Python sequence slicing `l[a:b]` (step 1) in terms of the normalized
bounds. -/
def pySlice {α : Type} (l : List α) (a b : Int) : List α :=
  (l.drop (pyIdx l.length a).toNat).take (pyIdx l.length b - pyIdx l.length a).toNat

/-- The pagination step of `serialize_qs` (views.py lines 166-173):
when `page_size` is an int, replace the queryset by
`queryset[offset:offset + page_size]`; otherwise leave it whole. -/
def applyPagination (page_size : Option Int) (page : PageParam) (qs : List Rec) : List Rec :=
  match page_size with
  | some S => pySlice qs (pageOffset S page) (pageOffset S page + S)
  | none => qs

/-- A response body: plain text (`HttpResponse('...')`), or the data that
`json_encoder.encode` would serialize — a single object or an array. -/
inductive Body where
  | text : String → Body
  | jsonSingle : Dict → Body
  | jsonList : List Dict → Body
  deriving DecidableEq

/-- Outcome of a handler: an `HttpResponse` with a status, a raised
`Http404`, or an uncaught exception (`IndexError` from `[0]` on an empty
slice, `MultipleObjectsReturned` from `.get`). -/
inductive HttpResult where
  | resp : Nat → Body → HttpResult
  | http404 : HttpResult
  | exn : HttpResult
  deriving DecidableEq

/-- The HTTP status the client sees: a raised `Http404` renders as 404
and an uncaught exception as a 500-class server error. -/
def statusOf : HttpResult → Nat
  | .resp s _ => s
  | .http404 => 404
  | .exn => 500

/-- Result of `serialize_qs`: the serialized data, or the `IndexError`
raised by `self.get_values(queryset[:1])[0]` on an empty queryset. -/
inductive SerOut where
  | ok : Body → SerOut
  | indexError : SerOut

/-- `serialize_qs` (views.py lines 153-175). `kwargsPk` is
`self.kwargs.get(self.pk)`. On the single path, `queryset[:1]` is
`qs.take 1` and `[0]` on an empty result raises. On the collection path,
pagination is applied before projecting. -/
def serialize_qs (cfg : ViewConfig) (hasValuesAttr : Bool) (kwargsPk : Option PyVal)
    (page : PageParam) (qs : List Rec) (single_object : Bool) : SerOut :=
  if single_object || kwTruthy kwargsPk then
    match (get_values cfg hasValuesAttr (qs.take 1)).head? with
    | some d => .ok (.jsonSingle d)
    | none => .indexError
  else
    .ok (.jsonList (get_values cfg hasValuesAttr (applyPagination cfg.page_size page qs)))

/-- `success_response` applied to a `serialize_qs` result: a 200 response,
unless serialization itself raised. -/
def serResponse : SerOut → HttpResult
  | .ok b => .resp 200 b
  | .indexError => .exn

/-- `get_single_item` (views.py lines 66-76): filter by primary key,
`assert len(qs) == 1` with `AssertionError` caught into `Http404`, then
serialize and wrap in a 200. -/
def get_single_item (cfg : ViewConfig) (hasValuesAttr : Bool) (v : PyVal)
    (page : PageParam) (state : List Rec) : HttpResult :=
  if (state.filter (fun r => decide (r cfg.pk = v))).length = 1 then
    serResponse (serialize_qs cfg hasValuesAttr (some v) page
      (state.filter (fun r => decide (r cfg.pk = v))) false)
  else
    .http404

/-- `get_collection` (views.py lines 78-84): serialize the whole base
queryset. -/
def get_collection (cfg : ViewConfig) (hasValuesAttr : Bool) (kwargsPk : Option PyVal)
    (page : PageParam) (state : List Rec) : HttpResult :=
  serResponse (serialize_qs cfg hasValuesAttr kwargsPk page state false)

/-- `get` (views.py lines 57-64): dispatch on the truthiness of
`kwargs.get(self.pk)`. -/
def get (cfg : ViewConfig) (hasValuesAttr : Bool) (kwargsPk : Option PyVal)
    (page : PageParam) (state : List Rec) : HttpResult :=
  match kwargsPk with
  | some v =>
    if pyTruthy v then get_single_item cfg hasValuesAttr v page state
    else get_collection cfg hasValuesAttr (some v) page state
  | none => get_collection cfg hasValuesAttr none page state

/-- `form.errors`: a mapping from field name to the list of its messages. -/
abbrev FormErrors := List (String × List String)

/-- The outcome of running a form on decoded input: `form.is_valid()` and
then `form.save()` producing a record, or the structured `form.errors`. -/
inductive FormResult where
  | valid : Rec → FormResult
  | invalid : FormErrors → FormResult

/-- A decoded request body: the mapping produced by
`json_decoder.decode(request.body)`, or the `ValueError` it raised. -/
abbrev DecodedBody := Except Unit Dict

/-- `validation_error_response` (views.py lines 198-206): a 400 text
response of the fixed marker followed by `str(form.errors)`; `strErrors`
stands for Python's `str` on the error mapping. -/
def validation_error_response (strErrors : FormErrors → String)
    (form_errors : FormErrors) : HttpResult :=
  .resp 400 (.text ("<p>ERROR: validation failed</p>" ++ strErrors form_errors))

/-- `post` (views.py lines 86-110): reject with 405 when no
`add_form_class` is configured; decode the body (400 on `ValueError`);
run the form; on success serialize the saved object as a single object
(`[obj]` is a plain list, so `hasValuesAttr` is false there), else return
the validation-error response. -/
def post (cfg : ViewConfig) (strErrors : FormErrors → String) (kwargsPk : Option PyVal)
    (page : PageParam) (body : DecodedBody) (add_form : Dict → FormResult) : HttpResult :=
  if !cfg.add_form_configured then .resp 405 (.text "POST not supported")
  else
    match body with
    | .error _ => .resp 400 (.text "Invalid POST JSON")
    | .ok d =>
      match add_form d with
      | .valid obj => serResponse (serialize_qs cfg false kwargsPk page [obj] true)
      | .invalid errs => validation_error_response strErrors errs

/-- `put` (views.py lines 112-137): 405 when no `edit_form_class` or no
`pk` in kwargs; then, inside one `try`, decode the body first and look the
instance up second — `ValueError` gives 400, `ObjectDoesNotExist` gives
`Http404`, and `MultipleObjectsReturned` from `.get` is uncaught. On a
valid form, serialize the saved object as a single object. -/
def put (cfg : ViewConfig) (strErrors : FormErrors → String) (kwargsPk : Option PyVal)
    (page : PageParam) (body : DecodedBody) (state : List Rec)
    (edit_form : Dict → Rec → FormResult) : HttpResult :=
  match kwargsPk with
  | none => .resp 405 (.text "PUT not supported")
  | some v =>
    if !cfg.edit_form_configured then .resp 405 (.text "PUT not supported")
    else
      match body with
      | .error _ => .resp 400 (.text "Invalid PUT JSON")
      | .ok d =>
        match state.filter (fun r => decide (r cfg.pk = v)) with
        | [] => .http404
        | [inst] =>
          match edit_form d inst with
          | .valid obj => serResponse (serialize_qs cfg false (some v) page [obj] true)
          | .invalid errs => validation_error_response strErrors errs
        | _ => .exn

/-- `delete` (views.py lines 139-151): 405 when no `pk` in kwargs;
otherwise filter by primary key; if the queryset is truthy (non-empty),
serialize it first, delete the matched records, and return the
pre-deletion serialization in a 200; else raise `Http404`. The second
component is the backing store after the request. -/
def delete (cfg : ViewConfig) (hasValuesAttr : Bool) (kwargsPk : Option PyVal)
    (page : PageParam) (state : List Rec) : HttpResult × List Rec :=
  match kwargsPk with
  | none => (.resp 405 (.text "DELETE is not supported for collections"), state)
  | some v =>
    if !(state.filter (fun r => decide (r cfg.pk = v))).isEmpty then
      (serResponse (serialize_qs cfg hasValuesAttr (some v) page
         (state.filter (fun r => decide (r cfg.pk = v))) false),
       state.filter (fun r => !decide (r cfg.pk = v)))
    else
      (.http404, state)

/-- The per-record projection function `get_values` maps over the
queryset; which one applies depends only on the configuration and on
whether the queryset has a callable `values` attribute. -/
def projFun (cfg : ViewConfig) (hasValuesAttr : Bool) : Rec → Dict :=
  match cfg.values_override with
  | some f => f
  | none =>
    if !cfg.custom_values.isEmpty || !hasValuesAttr then projCustom cfg
    else projPlain cfg

/-- A concrete record with an integer `id` field and `None` everywhere
else, for concrete test instances. -/
def mkRec (n : Nat) : Rec := fun f => if f = "id" then .vInt n else .vNone

/-- A concrete configuration: `serialize_fields = ("id",)`, no custom
values, no override, `pk = "id"`, `page_size = 10`, no forms. -/
def cfg10 : ViewConfig :=
  { serialize_fields := ["id"]
    custom_values := []
    values_override := none
    pk := "id"
    page_size := some 10
    add_form_configured := false
    edit_form_configured := false }

/-- A backing store of 25 records with ids 0..24. -/
def state25 : List Rec := (List.range 25).map mkRec

/-! ## Helper lemmas -/

theorem get_values_eq_map (cfg : ViewConfig) (hv : Bool) (qs : List Rec) :
    get_values cfg hv qs = qs.map (projFun cfg hv) := by
  unfold get_values projFun
  cases cfg.values_override with
  | some f => rfl
  | none => by_cases h : (!cfg.custom_values.isEmpty || !hv) = true <;> simp [h]

theorem get_values_singleton (cfg : ViewConfig) (hv : Bool) (r : Rec) :
    get_values cfg hv [r] = [projFun cfg hv r] := by
  rw [get_values_eq_map]; rfl

theorem pyIdx_of_nonneg (n a : Int) (_hn : 0 ≤ n) (ha : 0 ≤ a) :
    pyIdx n a = min a n := by
  unfold pyIdx
  rw [if_neg (by omega : ¬ a < 0)]

theorem pySlice_of_nonneg {α : Type} (l : List α) (a b : Int) (ha : 0 ≤ a) (hb : 0 ≤ b) :
    pySlice l a b = (l.drop a.toNat).take (b.toNat - a.toNat) := by
  have hn : (0:Int) ≤ (l.length : Int) := Int.natCast_nonneg _
  unfold pySlice
  rw [pyIdx_of_nonneg _ _ hn ha, pyIdx_of_nonneg _ _ hn hb]
  rcases le_or_lt (l.length : Int) a with h | h
  · have h1 : (min a (l.length : Int)).toNat = l.length := by omega
    rw [h1, List.drop_length, List.drop_eq_nil_of_le (by omega : l.length ≤ a.toNat)]
    simp
  · have h1 : min a (l.length : Int) = a := by omega
    rw [h1]
    rcases le_or_lt b (l.length : Int) with h2 | h2
    · have h3 : min b (l.length : Int) = b := by omega
      rw [h3]
      congr 1
      omega
    · have h3 : min b (l.length : Int) = l.length := by omega
      rw [h3]
      rw [List.take_of_length_le (by rw [List.length_drop]; omega),
        List.take_of_length_le (by rw [List.length_drop]; omega)]

theorem find?_map_set (t : Dict) (k : String) (v : PyVal)
    (h : t.any (fun p => p.1 = k) = true) :
    (t.map (fun p => if p.1 = k then (k, v) else p)).find? (fun p => p.1 = k)
      = some (k, v) := by
  induction t with
  | nil => simp at h
  | cons p t ih =>
    by_cases hp : p.1 = k
    · simp [List.find?, hp]
    · have ht : t.any (fun p => p.1 = k) = true := by
        simpa [List.any_cons, hp] using h
      simpa [List.find?, hp] using ih ht

theorem find?_append_set (t : Dict) (k : String) (v : PyVal)
    (h : t.any (fun p => p.1 = k) = false) :
    (t ++ [(k, v)]).find? (fun p => p.1 = k) = some (k, v) := by
  induction t with
  | nil => simp [List.find?]
  | cons p t ih =>
    have hp : (p.1 = k) = False := by
      by_contra hc
      simp only [eq_iff_iff, iff_false] at hc
      push_neg at hc
      simp [List.any_cons, hc] at h
    have ht : t.any (fun p => p.1 = k) = false := by
      rcases List.any_eq_false.mp h with h'
      exact List.any_eq_false.mpr (fun x hx => h' x (List.mem_cons_of_mem _ hx))
    simpa [List.find?, hp] using ih ht

theorem dictGet_dictSet_self (d : Dict) (k : String) (v : PyVal) :
    dictGet (dictSet d k v) k = some v := by
  unfold dictGet dictSet
  by_cases h : d.any (fun p => p.1 = k)
  · rw [if_pos h, find?_map_set d k v h]; rfl
  · rw [if_neg h, find?_append_set d k v (by rwa [Bool.not_eq_true] at h)]; rfl

theorem find?_map_set_ne (t : Dict) (k k' : String) (v : PyVal) (hne : k' ≠ k) :
    (t.map (fun p => if p.1 = k then (k, v) else p)).find? (fun p => p.1 = k')
      = t.find? (fun p => p.1 = k') := by
  induction t with
  | nil => rfl
  | cons p t ih =>
    by_cases hp : p.1 = k
    · have : (k = k') = False := by simp [(Ne.symm hne : ¬ k = k')]
      have hp' : (p.1 = k') = False := by simp [hp, (Ne.symm hne : ¬ k = k')]
      simp only [List.map_cons, if_pos hp, List.find?, this, hp']
      simpa using ih
    · simp only [List.map_cons, if_neg hp, List.find?]
      by_cases hp' : p.1 = k'
      · simp [hp']
      · simpa [hp'] using ih

theorem dictGet_dictSet_ne (d : Dict) (k k' : String) (v : PyVal) (hne : k' ≠ k) :
    dictGet (dictSet d k v) k' = dictGet d k' := by
  unfold dictGet dictSet
  by_cases h : d.any (fun p => p.1 = k)
  · rw [if_pos h, find?_map_set_ne d k k' v hne]
  · rw [if_neg h, List.find?_append]
    have : ([((k, v) : String × PyVal)]).find? (fun p => p.1 = k') = none := by
      simp [List.find?, (Ne.symm hne : ¬ k = k')]
    rw [this]
    cases d.find? (fun p => p.1 = k') <;> rfl

theorem dictGet_customFold_of_notMem (r : Rec) (l : List (String × (Rec → PyVal)))
    (n : String) (h : n ∉ l.map Prod.fst) (init : Dict) :
    dictGet (l.foldl (fun d p => dictSet d p.1 (p.2 r)) init) n = dictGet init n := by
  induction l generalizing init with
  | nil => rfl
  | cons p t ih =>
    simp only [List.map_cons, List.mem_cons, not_or] at h
    simp only [List.foldl_cons]
    rw [ih h.2, dictGet_dictSet_ne _ _ _ _ h.1]

theorem dictGet_customFold_of_mem (r : Rec) (l : List (String × (Rec → PyVal)))
    (n : String) (m : Rec → PyVal) (hnd : (l.map Prod.fst).Nodup)
    (hmem : (n, m) ∈ l) (init : Dict) :
    dictGet (l.foldl (fun d p => dictSet d p.1 (p.2 r)) init) n = some (m r) := by
  induction l generalizing init with
  | nil => cases hmem
  | cons p t ih =>
    simp only [List.map_cons, List.nodup_cons] at hnd
    cases hmem with
    | head =>
      simp only [List.foldl_cons]
      rw [dictGet_customFold_of_notMem r t n hnd.1, dictGet_dictSet_self]
    | tail _ hmem' =>
      simp only [List.foldl_cons]
      exact ih hnd.2 hmem' _

theorem filter_not_filter {α : Type} (p : α → Bool) (l : List α) :
    (l.filter (fun a => !p a)).filter p = [] := by
  induction l with
  | nil => rfl
  | cons a t ih => by_cases h : p a <;> simp [List.filter_cons, h, ih]

theorem statusOf_serResponse (s : SerOut) : statusOf (serResponse s) ≠ 405 := by
  cases s <;> simp [serResponse, statusOf]

theorem serResponse_ne_http404 (s : SerOut) : serResponse s ≠ .http404 := by
  cases s <;> simp [serResponse]

theorem serialize_qs_single_head (cfg : ViewConfig) (hv : Bool) (v : PyVal)
    (page : PageParam) (r : Rec) (rest : List Rec) (h : pyTruthy v = true) :
    serialize_qs cfg hv (some v) page (r :: rest) false
      = .ok (.jsonSingle (projFun cfg hv r)) := by
  unfold serialize_qs
  rw [if_pos (by simp [kwTruthy, h])]
  simp [List.take_cons, get_values_singleton]

theorem serialize_qs_collection (cfg : ViewConfig) (hv : Bool) (kw : Option PyVal)
    (page : PageParam) (qs : List Rec) (h : kwTruthy kw = false) :
    serialize_qs cfg hv kw page qs false
      = .ok (.jsonList (get_values cfg hv (applyPagination cfg.page_size page qs))) := by
  unfold serialize_qs
  rw [if_neg (by simp [h])]

theorem delete_of_no_match (cfg : ViewConfig) (hv : Bool) (v : PyVal) (page : PageParam)
    (state : List Rec) (h : state.filter (fun r => decide (r cfg.pk = v)) = []) :
    delete cfg hv (some v) page state = (.http404, state) := by
  simp only [delete, h]
  rfl

/-! ## Claims -/

/-- Claim C8: the JSON encoder's fallback for values the json library
cannot natively represent applies its rules in order: a datetime is
encoded as its ISO-8601 string, a Decimal as the float conversion of its
value, and anything else silently becomes `None` (JSON null) — the hook
is total and never raises. -/
theorem json_encoder_fallback_rules (isoformat : Nat → String) (pyFloat : Rat → Rat) :
    (∀ d, DjangboneJSONEncoder.default isoformat pyFloat (.vDatetime d)
        = .vStr (isoformat d)) ∧
    (∀ q, DjangboneJSONEncoder.default isoformat pyFloat (.vDecimal q)
        = .vFloat (pyFloat q)) ∧
    (∀ v, (∀ d, v ≠ .vDatetime d) → (∀ q, v ≠ .vDecimal q) →
        DjangboneJSONEncoder.default isoformat pyFloat v = .vNone) := by
  refine ⟨fun d => rfl, fun q => rfl, ?_⟩
  intro v h1 h2
  cases v with
  | vDatetime d => exact absurd rfl (h1 d)
  | vDecimal q => exact absurd rfl (h2 q)
  | vNone => rfl
  | vBool b => rfl
  | vInt n => rfl
  | vStr s => rfl
  | vFloat q => rfl
  | vOther t => rfl

/-- Claim C8 witness: the fallback at a concrete non-datetime,
non-Decimal value. -/
theorem json_encoder_fallback_rules_witness :
    DjangboneJSONEncoder.default (fun _ => "1970-01-01T00:00:00") (fun q => q)
      (.vStr "x") = .vNone :=
  (json_encoder_fallback_rules (fun _ => "1970-01-01T00:00:00") (fun q => q)).2.2
    (.vStr "x") (fun d => by simp) (fun q => by simp)

/-- Claim C7: if `values_override` is set, `get_values` is exactly the
override mapped per record, ignoring `serialize_fields` and
`custom_values`; otherwise, with non-empty `custom_values`, each record's
projection reads the `serialize_fields` off the record and then applies
each custom entry, so (with the distinct keys of a Python dict) a custom
computed field always wins over a same-named plain field in the output
mapping. -/
theorem projector_override_and_custom_precedence (cfg : ViewConfig) (hv : Bool)
    (qs : List Rec) :
    (∀ f, cfg.values_override = some f → get_values cfg hv qs = qs.map f) ∧
    (cfg.values_override = none → cfg.custom_values.isEmpty = false →
      get_values cfg hv qs = qs.map (projCustom cfg)) ∧
    (∀ (n : String) (m : Rec → PyVal) (r : Rec),
      (cfg.custom_values.map Prod.fst).Nodup → (n, m) ∈ cfg.custom_values →
      dictGet (projCustom cfg r) n = some (m r)) := by
  refine ⟨?_, ?_, ?_⟩
  · intro f hf
    unfold get_values
    rw [hf]
  · intro ho hc
    unfold get_values
    rw [ho]
    simp only [hc]
    rfl
  · intro n m r hnd hmem
    exact dictGet_customFold_of_mem r cfg.custom_values n m hnd hmem _

/-- A configuration with one plain field `"x"` and a custom value of the
same name, to exercise the precedence rule. -/
def cfgCustom : ViewConfig :=
  { serialize_fields := ["x"]
    custom_values := [("x", fun r => r "y")]
    values_override := none
    pk := "id"
    page_size := none
    add_form_configured := false
    edit_form_configured := false }

/-- Claim C7 witness: on a record whose plain `"x"` field is `1`, the
custom `"x"` entry (reading field `"y"`, which is `None`) wins. -/
theorem projector_override_and_custom_precedence_witness :
    dictGet (projCustom cfgCustom (fun f => if f = "x" then .vInt 1 else .vNone)) "x"
      = some .vNone :=
  (projector_override_and_custom_precedence cfgCustom false []).2.2 "x"
    (fun r => r "y") (fun f => if f = "x" then .vInt 1 else .vNone)
    (by simp [cfgCustom]) (by simp [cfgCustom])

/-- Claim C2: a single-record GET (truthy captured identifier) requires
exactly one primary-key match: length ≠ 1 (zero or several matches) ends
in `Http404`, and exactly one match returns that record's projection in a
200 response. -/
theorem get_single_item_unique_match (cfg : ViewConfig) (hv : Bool) (v : PyVal)
    (page : PageParam) (state : List Rec) (htr : pyTruthy v = true) :
    ((state.filter (fun r => decide (r cfg.pk = v))).length ≠ 1 →
      get cfg hv (some v) page state = .http404) ∧
    (∀ r, state.filter (fun r => decide (r cfg.pk = v)) = [r] →
      get cfg hv (some v) page state = .resp 200 (.jsonSingle (projFun cfg hv r))) := by
  constructor
  · intro hne
    simp only [get, if_pos htr, get_single_item]
    rw [if_neg hne]
  · intro r hr
    simp only [get, if_pos htr, get_single_item, hr]
    rw [if_pos (by simp), serialize_qs_single_head cfg hv v page r [] htr]
    rfl

/-- Claim C2 witness: GET for id 1 against an empty store is a 404. -/
theorem get_single_item_unique_match_witness :
    get cfg10 false (some (.vInt 1)) PageParam.absent [] = .http404 :=
  (get_single_item_unique_match cfg10 false (.vInt 1) PageParam.absent [] (by decide)).1
    (by decide)

/-- Claim C3: DELETE with a (truthy) identifier: no match leaves the
store untouched and raises `Http404`; a unique match serializes the
record before deleting it, returns the pre-deletion projection with 200,
and removes the record; repeating the same DELETE afterwards yields 404,
not a second success. -/
theorem delete_read_then_destroy_idempotent (cfg : ViewConfig) (hv : Bool) (v : PyVal)
    (page : PageParam) (state : List Rec) (htr : pyTruthy v = true) :
    (state.filter (fun r => decide (r cfg.pk = v)) = [] →
      delete cfg hv (some v) page state = (.http404, state)) ∧
    (∀ r, state.filter (fun r => decide (r cfg.pk = v)) = [r] →
      delete cfg hv (some v) page state
        = (.resp 200 (.jsonSingle (projFun cfg hv r)),
           state.filter (fun r => !decide (r cfg.pk = v)))) ∧
    (∀ r, state.filter (fun r => decide (r cfg.pk = v)) = [r] →
      delete cfg hv (some v) page (delete cfg hv (some v) page state).2
        = (.http404, (delete cfg hv (some v) page state).2)) := by
  have hdel : ∀ r, state.filter (fun r => decide (r cfg.pk = v)) = [r] →
      delete cfg hv (some v) page state
        = (.resp 200 (.jsonSingle (projFun cfg hv r)),
           state.filter (fun r => !decide (r cfg.pk = v))) := by
    intro r hr
    simp only [delete, hr]
    rw [if_pos (by simp), serialize_qs_single_head cfg hv v page r [] htr]
    rfl
  refine ⟨fun h => delete_of_no_match cfg hv v page state h, hdel, ?_⟩
  intro r hr
  have h2 : (delete cfg hv (some v) page state).2
      = state.filter (fun r => !decide (r cfg.pk = v)) := by
    rw [hdel r hr]
  rw [h2]
  exact delete_of_no_match cfg hv v page _
    (filter_not_filter (fun r => decide (r cfg.pk = v)) state)

/-- Claim C3 witness: deleting id 1 from a one-record store returns the
record's pre-deletion projection and empties the store. -/
theorem delete_read_then_destroy_idempotent_witness :
    delete cfg10 false (some (.vInt 1)) PageParam.absent [mkRec 1]
      = (.resp 200 (.jsonSingle [("id", .vInt 1)]), []) :=
  (delete_read_then_destroy_idempotent cfg10 false (.vInt 1) PageParam.absent
    [mkRec 1] (by decide)).2.1 (mkRec 1) rfl

theorem pySlice_stop_zero {α : Type} (l : List α) (a : Int) : pySlice l a 0 = [] := by
  have hn : (0:Int) ≤ (l.length : Int) := Int.natCast_nonneg _
  unfold pySlice pyIdx
  rw [if_neg (lt_irrefl 0), (by omega : min (0:Int) (l.length : Int) = 0)]
  split
  · rw [(by omega : (0 - max ((l.length : Int) + a) 0).toNat = 0)]
    exact List.take_zero _
  · rename_i ha
    rw [(by omega : (0 - min a (l.length : Int)).toNat = 0)]
    exact List.take_zero _

/-- Claim C1 counterexample: with `page_size = 10`, a request for page 0
does not behave like page 1 — the computed offset is `(0-1)*10 = -10`,
not 0, and over a 25-record store the resulting Python slice
`qs[-10:0]` is empty rather than the first 10 records. -/
theorem page_below_one_counterexample :
    pageOffset 10 (PageParam.val (some 0)) ≠ 0 ∧
    applyPagination (some 10) (PageParam.val (some 0)) state25 = [] ∧
    applyPagination (some 10) (PageParam.val (some 1)) state25
      ≠ applyPagination (some 10) (PageParam.val (some 0)) state25 := by
  refine ⟨by decide, rfl, ?_⟩
  intro h
  exact absurd (congrArg List.length h) (by decide)

/-- Claim C1 amended: for an integer page parameter P below 1, the
computed offset is `(P-1)*page_size` — a negative number, not 0 — and the
collection is sliced at `[(P-1)*S, (P-1)*S + S)` under Python slice
semantics; in particular P = 0 always yields the empty slice, not the
first S records. -/
theorem page_below_one_negative_offset (S P : Int) (qs : List Rec)
    (hS : 1 ≤ S) (hP : P ≤ 0) :
    pageOffset S (.val (some P)) = (P - 1) * S ∧
    (P - 1) * S < 0 ∧
    applyPagination (some S) (.val (some P)) qs
      = pySlice qs ((P - 1) * S) ((P - 1) * S + S) ∧
    applyPagination (some S) (.val (some 0)) qs = [] := by
  refine ⟨rfl, mul_neg_of_neg_of_pos (by omega) (by omega), rfl, ?_⟩
  show pySlice qs ((0 - 1) * S) ((0 - 1) * S + S) = []
  rw [(by ring : ((0:Int) - 1) * S + S = 0)]
  exact pySlice_stop_zero qs _

/-- Claim C1 (amended) witness: page 0 at page size 10. -/
theorem page_below_one_negative_offset_witness :
    pageOffset 10 (PageParam.val (some 0)) = ((0:Int) - 1) * 10 ∧
    applyPagination (some 10) (PageParam.val (some 0)) state25 = [] := by
  have h := page_below_one_negative_offset 10 0 state25 (by norm_num) (by norm_num)
  exact ⟨h.1, h.2.2.2⟩

/-- Claim C4: with an integer `page_size` S ≥ 1 and an integer requested
page P ≥ 1, the returned slice is exactly the S-record window starting at
index `(P-1)*S` of the full result, hence has length at most S; an offset
at or beyond the result count yields the empty list rather than an error;
and an unparseable page parameter is treated as offset 0 (the first S
records). -/
theorem pagination_slice_bounds (S P : Int) (qs : List Rec) (hS : 1 ≤ S) (hP : 1 ≤ P) :
    applyPagination (some S) (.val (some P)) qs
      = (qs.drop ((P - 1) * S).toNat).take S.toNat ∧
    (applyPagination (some S) (.val (some P)) qs).length ≤ S.toNat ∧
    ((qs.length : Int) ≤ (P - 1) * S →
      applyPagination (some S) (.val (some P)) qs = []) ∧
    applyPagination (some S) (.val none) qs = qs.take S.toNat := by
  have ho : 0 ≤ (P - 1) * S := mul_nonneg (by omega) (by omega)
  have key : applyPagination (some S) (.val (some P)) qs
      = (qs.drop ((P - 1) * S).toNat).take S.toNat := by
    show pySlice qs ((P - 1) * S) ((P - 1) * S + S) = _
    rw [pySlice_of_nonneg qs _ _ ho (by omega)]
    congr 1
    omega
  refine ⟨key, ?_, ?_, ?_⟩
  · rw [key, List.length_take]
    omega
  · intro hlen
    rw [key, List.drop_eq_nil_of_le (by omega : qs.length ≤ ((P - 1) * S).toNat)]
    exact List.take_nil
  · show pySlice qs 0 (0 + S) = _
    rw [pySlice_of_nonneg qs _ _ le_rfl (by omega)]
    simp

/-- Claim C4 witness: 25 records, page size 10, page 3 — the slice is the
window at offset 20 (so 5 records come back). -/
theorem pagination_slice_bounds_witness :
    applyPagination (some 10) (PageParam.val (some 3)) state25
      = (state25.drop (((3:Int) - 1) * 10).toNat).take (10:Int).toNat ∧
    (applyPagination (some 10) (PageParam.val (some 3)) state25).length ≤ (10:Int).toNat := by
  have h := pagination_slice_bounds 10 3 state25 (by norm_num) (by norm_num)
  exact ⟨h.1, h.2.1⟩

/-- cfg10 with both form classes configured. -/
def cfgForms : ViewConfig :=
  { cfg10 with add_form_configured := true, edit_form_configured := true }

/-- A stand-in for Python's `str` on a form-error mapping. -/
def strErr0 : FormErrors → String := fun _ => "[errors]"

/-- A form that always rejects its input. -/
def af0 : Dict → FormResult := fun _ => .invalid [("name", ["This field is required."])]

/-- An edit form that always rejects its input. -/
def ef0 : Dict → Rec → FormResult := fun _ _ => .invalid []

theorem statusOf_formBranch (cfg : ViewConfig) (strE : FormErrors → String)
    (kw : Option PyVal) (page : PageParam) (fr : FormResult) :
    statusOf (match fr with
      | FormResult.valid obj => serResponse (serialize_qs cfg false kw page [obj] true)
      | FormResult.invalid errs => validation_error_response strE errs) ≠ 405 := by
  cases fr with
  | valid obj => exact statusOf_serResponse _
  | invalid errs => simp [validation_error_response, statusOf]

theorem formBranch_ne_http404 (cfg : ViewConfig) (strE : FormErrors → String)
    (kw : Option PyVal) (page : PageParam) (fr : FormResult) :
    (match fr with
      | FormResult.valid obj => serResponse (serialize_qs cfg false kw page [obj] true)
      | FormResult.invalid errs => validation_error_response strE errs)
      ≠ HttpResult.http404 := by
  cases fr with
  | valid obj => exact serResponse_ne_http404 _
  | invalid errs => simp [validation_error_response]

theorem post_not_405 (cfg : ViewConfig) (strE : FormErrors → String) (kw : Option PyVal)
    (page : PageParam) (body : DecodedBody) (af : Dict → FormResult)
    (h : cfg.add_form_configured = true) :
    statusOf (post cfg strE kw page body af) ≠ 405 := by
  unfold post
  rw [if_neg (by simp [h])]
  cases body with
  | error e =>
    show statusOf (HttpResult.resp 400 (Body.text "Invalid POST JSON")) ≠ 405
    decide
  | ok d => exact statusOf_formBranch cfg strE kw page (af d)

theorem put_not_405 (cfg : ViewConfig) (strE : FormErrors → String) (v : PyVal)
    (page : PageParam) (body : DecodedBody) (state : List Rec)
    (ef : Dict → Rec → FormResult) (h : cfg.edit_form_configured = true) :
    statusOf (put cfg strE (some v) page body state ef) ≠ 405 := by
  simp only [put]
  rw [if_neg (by simp [h])]
  cases body with
  | error e =>
    show statusOf (HttpResult.resp 400 (Body.text "Invalid PUT JSON")) ≠ 405
    decide
  | ok d =>
    cases hf : state.filter (fun r => decide (r cfg.pk = v)) with
    | nil =>
      show statusOf HttpResult.http404 ≠ 405
      decide
    | cons inst rest =>
      cases rest with
      | nil => exact statusOf_formBranch cfg strE (some v) page (ef d inst)
      | cons a t =>
        show statusOf HttpResult.exn ≠ 405
        decide

theorem delete_not_405 (cfg : ViewConfig) (hv : Bool) (v : PyVal) (page : PageParam)
    (state : List Rec) :
    statusOf ((delete cfg hv (some v) page state).1) ≠ 405 := by
  simp only [delete]
  split
  · exact statusOf_serResponse _
  · simp [statusOf]

theorem get_not_405 (cfg : ViewConfig) (hv : Bool) (kw : Option PyVal) (page : PageParam)
    (state : List Rec) : statusOf (get cfg hv kw page state) ≠ 405 := by
  have hcol : ∀ k, statusOf (get_collection cfg hv k page state) ≠ 405 := by
    intro k
    exact statusOf_serResponse _
  cases kw with
  | none => exact hcol none
  | some v =>
    simp only [get]
    split
    · unfold get_single_item
      split
      · exact statusOf_serResponse _
      · simp [statusOf]
    · exact hcol (some v)

theorem post_405 (cfg : ViewConfig) (strE : FormErrors → String) (kw : Option PyVal)
    (page : PageParam) (body : DecodedBody) (af : Dict → FormResult)
    (h : cfg.add_form_configured = false) :
    post cfg strE kw page body af = .resp 405 (.text "POST not supported") := by
  unfold post
  rw [if_pos (by simp [h])]

theorem put_405_noform (cfg : ViewConfig) (strE : FormErrors → String) (v : PyVal)
    (page : PageParam) (body : DecodedBody) (state : List Rec)
    (ef : Dict → Rec → FormResult) (h : cfg.edit_form_configured = false) :
    put cfg strE (some v) page body state ef = .resp 405 (.text "PUT not supported") := by
  simp only [put]
  rw [if_pos (by simp [h])]

/-- Claim C6: the dispatcher returns 405 exactly when: POST with no
add-form configured (body `POST not supported`); PUT with no edit-form or
no identifier in the URL kwargs (body `PUT not supported`); DELETE with
no identifier (body `DELETE is not supported for collections`). The 405
responses are produced without looking at the request body or the backing
store (they are the same for every body and store), and GET never
produces a 405. -/
theorem dispatcher_405_exactly (cfg : ViewConfig) (strE : FormErrors → String) (hv : Bool) :
    (∀ kw page body af,
      (statusOf (post cfg strE kw page body af) = 405 ↔
        cfg.add_form_configured = false) ∧
      (cfg.add_form_configured = false →
        post cfg strE kw page body af = .resp 405 (.text "POST not supported"))) ∧
    (∀ kw page body state ef,
      (statusOf (put cfg strE kw page body state ef) = 405 ↔
        (cfg.edit_form_configured = false ∨ kw = none)) ∧
      ((cfg.edit_form_configured = false ∨ kw = none) →
        put cfg strE kw page body state ef = .resp 405 (.text "PUT not supported"))) ∧
    (∀ kw page state,
      (statusOf (delete cfg hv kw page state).1 = 405 ↔ kw = none) ∧
      (kw = none →
        delete cfg hv kw page state
          = (.resp 405 (.text "DELETE is not supported for collections"), state))) ∧
    (∀ kw page state, statusOf (get cfg hv kw page state) ≠ 405) := by
  refine ⟨?_, ?_, ?_, get_not_405 cfg hv⟩
  · intro kw page body af
    constructor
    · constructor
      · intro h405
        by_contra hc
        have h : cfg.add_form_configured = true := by
          revert hc; cases cfg.add_form_configured <;> simp
        exact post_not_405 cfg strE kw page body af h h405
      · intro h
        rw [post_405 cfg strE kw page body af h]
        rfl
    · exact post_405 cfg strE kw page body af
  · intro kw page body state ef
    have h405 : (cfg.edit_form_configured = false ∨ kw = none) →
        put cfg strE kw page body state ef = .resp 405 (.text "PUT not supported") := by
      intro h
      cases kw with
      | none => rfl
      | some v =>
        rcases h with h | h
        · exact put_405_noform cfg strE v page body state ef h
        · exact absurd h (by simp)
    constructor
    · constructor
      · intro hs
        by_contra hc
        push_neg at hc
        have he : cfg.edit_form_configured = true := by
          have := hc.1; revert this; cases cfg.edit_form_configured <;> simp
        cases kw with
        | none => exact hc.2 rfl
        | some v => exact put_not_405 cfg strE v page body state ef he hs
      · intro h
        rw [h405 h]
        rfl
    · exact h405
  · intro kw page state
    constructor
    · constructor
      · intro hs
        by_contra hc
        cases kw with
        | none => exact hc rfl
        | some v => exact delete_not_405 cfg hv v page state hs
      · intro h
        subst h
        rfl
    · intro h
      subst h
      rfl

/-- Claim C6 witness: POST against a view with no add form configured. -/
theorem dispatcher_405_exactly_witness :
    post cfg10 strErr0 none PageParam.absent (.error ()) af0
      = .resp 405 (.text "POST not supported") :=
  ((dispatcher_405_exactly cfg10 strErr0 false).1 none PageParam.absent
    (.error ()) af0).2 rfl

/-- Claim C5: once the form-configured and identifier guards pass, a body
that fails JSON decoding yields a 400 naming invalid JSON, and a decoded
body the form rejects yields a 400 whose body is the fixed
`ERROR: validation failed` marker followed by the string form of the
field-to-messages error mapping — for both POST and PUT. -/
theorem write_error_responses (cfg : ViewConfig) (strE : FormErrors → String)
    (kw : Option PyVal) (page : PageParam) (state : List Rec)
    (af : Dict → FormResult) (ef : Dict → Rec → FormResult) (v : PyVal)
    (hAdd : cfg.add_form_configured = true) (hEdit : cfg.edit_form_configured = true) :
    (post cfg strE kw page (.error ()) af = .resp 400 (.text "Invalid POST JSON")) ∧
    (∀ d errs, af d = .invalid errs →
      post cfg strE kw page (.ok d) af
        = .resp 400 (.text ("<p>ERROR: validation failed</p>" ++ strE errs))) ∧
    (put cfg strE (some v) page (.error ()) state ef
      = .resp 400 (.text "Invalid PUT JSON")) ∧
    (∀ d inst errs, state.filter (fun r => decide (r cfg.pk = v)) = [inst] →
      ef d inst = .invalid errs →
      put cfg strE (some v) page (.ok d) state ef
        = .resp 400 (.text ("<p>ERROR: validation failed</p>" ++ strE errs))) := by
  refine ⟨?_, ?_, ?_, ?_⟩
  · unfold post
    rw [if_neg (by simp [hAdd])]
  · intro d errs haf
    unfold post
    rw [if_neg (by simp [hAdd])]
    simp only [haf]
    rfl
  · simp only [put]
    rw [if_neg (by simp [hEdit])]
  · intro d inst errs hf hef
    simp only [put]
    rw [if_neg (by simp [hEdit])]
    simp only [hf, hef]
    rfl

/-- Claim C5 witness: malformed JSON on a POST with an add form
configured. -/
theorem write_error_responses_witness :
    post cfgForms strErr0 none PageParam.absent (.error ()) af0
      = .resp 400 (.text "Invalid POST JSON") :=
  (write_error_responses cfgForms strErr0 none PageParam.absent [] af0 ef0
    (.vInt 1) rfl rfl).1

/-- Claim C9: GET decides identifier presence by the truthiness of the
captured URL value, so a present-but-falsy identifier is dispatched to
the list-collection operation (a 200 JSON array of the paginated
projections), whereas PUT and DELETE test key membership and therefore do
not 405 on a present-but-falsy identifier. -/
theorem identifier_presence_truthiness_vs_membership (cfg : ViewConfig)
    (strE : FormErrors → String) (hv : Bool) (v : PyVal) (page : PageParam)
    (state : List Rec) (body : DecodedBody) (ef : Dict → Rec → FormResult)
    (hF : pyTruthy v = false) (hEdit : cfg.edit_form_configured = true) :
    get cfg hv (some v) page state
      = .resp 200 (.jsonList (get_values cfg hv (applyPagination cfg.page_size page state))) ∧
    statusOf (put cfg strE (some v) page body state ef) ≠ 405 ∧
    statusOf ((delete cfg hv (some v) page state).1) ≠ 405 := by
  refine ⟨?_, put_not_405 cfg strE v page body state ef hEdit,
    delete_not_405 cfg hv v page state⟩
  simp only [get, if_neg (by simp [hF] : ¬ pyTruthy v = true), get_collection]
  rw [serialize_qs_collection cfg hv (some v) page state (by simp [kwTruthy, hF])]
  rfl

/-- Claim C9 witness: a GET whose captured id is the empty string lists
the collection. -/
theorem identifier_presence_truthiness_vs_membership_witness :
    get cfgForms false (some (.vStr "")) PageParam.absent []
      = .resp 200 (.jsonList (get_values cfgForms false
          (applyPagination cfgForms.page_size PageParam.absent []))) :=
  (identifier_presence_truthiness_vs_membership cfgForms strErr0 false (.vStr "")
    PageParam.absent [] (.error ()) ef0 (by decide) rfl).1

/-- Claim C10: in PUT the request body is decoded before the record is
looked up: malformed JSON yields 400 `Invalid PUT JSON` for every backing
store, whether or not the record exists, and `Http404` is raised exactly
when the body decoded successfully and no record matches the key. -/
theorem put_decode_before_lookup (cfg : ViewConfig) (strE : FormErrors → String)
    (v : PyVal) (page : PageParam) (ef : Dict → Rec → FormResult)
    (hEdit : cfg.edit_form_configured = true) :
    (∀ state, put cfg strE (some v) page (.error ()) state ef
      = .resp 400 (.text "Invalid PUT JSON")) ∧
    (∀ body state, put cfg strE (some v) page body state ef = .http404 ↔
      ((∃ d, body = .ok d) ∧ state.filter (fun r => decide (r cfg.pk = v)) = [])) := by
  have herr : ∀ state, put cfg strE (some v) page (.error ()) state ef
      = .resp 400 (.text "Invalid PUT JSON") := by
    intro state
    simp only [put]
    rw [if_neg (by simp [hEdit])]
  refine ⟨herr, ?_⟩
  intro body state
  constructor
  · intro h404
    cases body with
    | error e =>
      cases e
      rw [herr state] at h404
      exact absurd h404 (by decide)
    | ok d =>
      refine ⟨⟨d, rfl⟩, ?_⟩
      by_contra hne
      have hput : put cfg strE (some v) page (.ok d) state ef ≠ .http404 := by
        simp only [put]
        rw [if_neg (by simp [hEdit])]
        cases hf : state.filter (fun r => decide (r cfg.pk = v)) with
        | nil => exact absurd hf hne
        | cons inst rest =>
          cases rest with
          | nil => exact formBranch_ne_http404 cfg strE (some v) page (ef d inst)
          | cons a t =>
            show HttpResult.exn ≠ HttpResult.http404
            decide
      exact hput h404
  · rintro ⟨⟨d, rfl⟩, hf⟩
    simp only [put]
    rw [if_neg (by simp [hEdit]), hf]

/-- Claim C10 witness: malformed PUT JSON against an empty store (the
record certainly does not exist) still yields the 400, not a 404. -/
theorem put_decode_before_lookup_witness :
    put cfgForms strErr0 (some (.vInt 1)) PageParam.absent (.error ()) [] ef0
      = .resp 400 (.text "Invalid PUT JSON") :=
  (put_decode_before_lookup cfgForms strErr0 (.vInt 1) PageParam.absent ef0 rfl).1 []

end Djangbone
